import Mathlib

/-
Shallow embedding of the DBOS durable-execution core (src/dbos/core.py).

Machine reals (Python floats used for retry intervals) are modelled as
exact rationals; workflow/step outputs are modelled by a type parameter.
Helpers of this repository that are not under src/ (dbos/context.py,
dbos/utils.py, DBOS.retrieve_workflow in dbos/dbos.py) are modelled from
the spec and carry a doc comment saying so.
-/

/-- Modelled from the spec: dbos/utils.py (serialize / deserialize) is not under
src/.  The spec (section 6) requires a single serializer that round-trips
arbitrary user data and raised exceptions, so a serialized blob is modelled as a
wrapper holding the serialized object.  Serialized blobs are nonempty pickle
strings in the implementation, hence always truthy in Python. -/
structure Serialized (α : Type) where
  payload : α
  deriving DecidableEq, Repr

/-- Modelled from the spec: utils.serialize. -/
def serialize (v : α) : Serialized α := ⟨v⟩

/-- Modelled from the spec: utils.deserialize; exact inverse of serialize. -/
def deserialize (s : Serialized α) : α := s.payload

/-- Exceptions that flow through src/dbos/core.py, abstracted by kind:
user exceptions carry an identifying payload, sqlalchemy DBAPIError carries its
SQLSTATE, and the distinguished DBOS error kinds are separate constructors. -/
inductive Exc where
  | user : String → Exc
  | dbapi : String → Exc
  | maxStepRetriesExceeded : Exc
  | bothNone : Exc
  | workflowConflictID : Exc
  | dbosError : String → Exc
  deriving DecidableEq, Repr

/-- The slice of DBOSContext (dbos/context.py) that src/dbos/core.py reads and
writes: the current workflow id, the per-workflow function_id counter, the id
reserved for the next child workflow, and the current step's function id. -/
structure DBOSContext where
  workflow_id : String
  function_id : Nat
  id_assigned_for_next_workflow : String
  curr_step_function_id : Nat
  deriving DecidableEq, Repr

/-- Modelled from the spec: DBOSContext.is_within_workflow (dbos/context.py is
not under src/).  Spec section 3: workflow_id is "empty outside any workflow". -/
def DBOSContext.is_within_workflow (ctx : DBOSContext) : Bool :=
  ctx.workflow_id.length > 0

/-- Modelled from the spec: EnterDBOSStep (dbos/context.py is not under src/).
Spec sections 4.6 and 4.8: entering a step scope increments the context's
function_id, which becomes the current step's function id. -/
def enter_dbos_step (ctx : DBOSContext) : DBOSContext :=
  { ctx with
    function_id := ctx.function_id + 1
    curr_step_function_id := ctx.function_id + 1 }

/-- Modelled from the spec: DBOSContext.create_child (dbos/context.py is not
under src/).  Spec section 4.1: the child context starts with function_id = 0;
the id reserved for the next workflow is carried over so the child id
derivation rule of section 4.1 takes effect. -/
def create_child (ctx : DBOSContext) : DBOSContext :=
  { workflow_id := ""
    function_id := 0
    id_assigned_for_next_workflow := ctx.id_assigned_for_next_workflow
    curr_step_function_id := 0 }

/-- Modelled from the spec: DBOSContext.assign_workflow_id (dbos/context.py is
not under src/).  Spec section 4.1: id_assigned_for_next_workflow is "id
reserved for the next child or explicitly-set workflow", so the reserved id is
returned when set; otherwise a fresh globally unique id (supplied here as an
explicit argument) is returned. -/
def assign_workflow_id (ctx : DBOSContext) (fresh_id : String) : String :=
  if ctx.id_assigned_for_next_workflow.length > 0 then
    ctx.id_assigned_for_next_workflow
  else fresh_id

/-- Shape of a recorded operation result returned by the OAOO lookups
(check_operation_execution / check_transaction_execution): the serialized
output and the serialized error, each possibly null. -/
structure RecordedResult (α : Type) where
  output : Option (Serialized α)
  error : Option (Serialized Exc)
  deriving DecidableEq, Repr

/-- OperationResultInternal (dbos/system_database.py): the row written by
record_operation_result for a step. -/
structure OperationResultInternal (α : Type) where
  workflow_uuid : String
  function_id : Nat
  output : Option (Serialized α)
  error : Option (Serialized Exc)
  deriving DecidableEq, Repr

/-- Exponential-backoff wait sequence: term 0 is the initial wait, and each
following term is the previous one times the factor, capped.  Both retry loops
of src/dbos/core.py sleep according to such a sequence. -/
def backoffSeq (w0 factor cap : ℚ) : Nat → ℚ
  | 0 => w0
  | k + 1 => min (backoffSeq w0 factor cap k * factor) cap

theorem backoffSeq_shift (w0 factor cap : ℚ) (k : Nat) :
    backoffSeq w0 factor cap (k + 1) =
      backoffSeq (min (w0 * factor) cap) factor cap k := by
  induction k with
  | zero => rfl
  | succ k ih => rw [backoffSeq, ih, backoffSeq]

/-- Mutable state of the retry loop in invoke_step (src/dbos/core.py lines
577-608): the output and error variables, plus the observable execution trace
(how many times the user body ran and which sleeps were performed). -/
structure StepLoopState (α : Type) where
  output : Option α
  error : Option Exc
  execs : Nat
  sleeps : List ℚ
  deriving DecidableEq, Repr

/-- The for-loop of invoke_step (src/dbos/core.py lines 582-608), with
attempts remaining counted down explicitly.  body n is the outcome of the n-th
execution of the user function.  On success the loop breaks with output set and
error cleared; on failure with retries allowed, the error is replaced by
DBOSMaxStepRetriesExceeded on the last attempt, otherwise the loop sleeps
local_interval_seconds and multiplies it by backoff_rate, capped at
max_retry_interval_seconds. -/
def step_retry_loop (retries_allowed : Bool) (backoff_rate : ℚ)
    (local_max_attempts : Nat) (max_retry_interval_seconds : ℚ)
    (body : Nat → Except Exc α) :
    Nat → Nat → ℚ → StepLoopState α → StepLoopState α
  | 0, _, _, st => st
  | remaining + 1, attempt, local_interval_seconds, st =>
    let st1 := { st with execs := st.execs + 1 }
    match body attempt with
    | .ok v => { st1 with output := some v, error := none }
    | .error err =>
      if retries_allowed then
        if attempt = local_max_attempts then
          step_retry_loop retries_allowed backoff_rate local_max_attempts
            max_retry_interval_seconds body remaining (attempt + 1)
            local_interval_seconds
            { st1 with error := some Exc.maxStepRetriesExceeded }
        else
          step_retry_loop retries_allowed backoff_rate local_max_attempts
            max_retry_interval_seconds body remaining (attempt + 1)
            (min (local_interval_seconds * backoff_rate)
              max_retry_interval_seconds)
            { st1 with error := some err
                       sleeps := st1.sleeps ++ [local_interval_seconds] }
      else
        step_retry_loop retries_allowed backoff_rate local_max_attempts
          max_retry_interval_seconds body remaining (attempt + 1)
          local_interval_seconds { st1 with error := some err }

/-- Observable result of one invoke_step call: the returned value or raised
error, the row written via record_operation_result (none when the OAOO check
short-circuited), the number of user-body executions, and the sleeps. -/
structure StepInvocation (α : Type) where
  outcome : Except Exc (Option α)
  recorded : Option (OperationResultInternal α)
  execs : Nat
  sleeps : List ℚ
  deriving Repr

/-- invoke_step (src/dbos/core.py lines 548-617).  EnterDBOSStep reserves the
step's function_id; check_operation_execution is the system database OAOO
lookup keyed by (workflow_id, function_id); body n is the outcome of the n-th
execution of the user function. -/
def invoke_step (retries_allowed : Bool) (interval_seconds : ℚ)
    (max_attempts : Nat) (backoff_rate : ℚ)
    (check_operation_execution : String → Nat → Option (RecordedResult α))
    (outer_ctx : DBOSContext) (body : Nat → Except Exc α) : StepInvocation α :=
  let ctx := enter_dbos_step outer_ctx
  match check_operation_execution ctx.workflow_id ctx.function_id with
  | some recorded_output =>
    match recorded_output.error with
    | some se =>
      { outcome := .error (deserialize se), recorded := none,
        execs := 0, sleeps := [] }
    | none =>
      match recorded_output.output with
      | some so =>
        { outcome := .ok (some (deserialize so)), recorded := none,
          execs := 0, sleeps := [] }
      | none =>
        { outcome := .error Exc.bothNone, recorded := none,
          execs := 0, sleeps := [] }
  | none =>
    let local_max_attempts := if retries_allowed then max_attempts else 1
    let max_retry_interval_seconds : ℚ := 3600
    let st := step_retry_loop retries_allowed backoff_rate local_max_attempts
      max_retry_interval_seconds body local_max_attempts 1 interval_seconds
      ⟨none, none, 0, []⟩
    let step_output : OperationResultInternal α :=
      { workflow_uuid := ctx.workflow_id
        function_id := ctx.function_id
        output := st.output.map serialize
        error := st.error.map serialize }
    { outcome :=
        match st.error with
        | some e => .error e
        | none => .ok st.output
      recorded := some step_output
      execs := st.execs
      sleeps := st.sleeps }

/-- What the environment does on one iteration of the invoke_tx while-loop
(src/dbos/core.py lines 441-502): the OAOO check finds a row, or the body runs
and the transaction commits, or a sqlalchemy DBAPIError with some SQLSTATE is
raised (bodyRan records whether the user body had run in that attempt), or the
body raises a non-DBAPI exception. -/
inductive TxAttemptEvent (α : Type) where
  | foundRecord : RecordedResult α → TxAttemptEvent α
  | bodyReturns : α → TxAttemptEvent α
  | raisedDBAPI : String → Bool → TxAttemptEvent α
  | bodyRaises : Exc → TxAttemptEvent α

/-- Observable result of a terminating invoke_tx call: value returned or error
raised, the output committed via record_transaction_output, the error written
via record_transaction_error, and whether the user body ran on the final
attempt. -/
structure TxDone (α : Type) where
  outcome : Except Exc α
  recordedOutput : Option α
  recordedError : Option Exc
  bodyRan : Bool

/-- One iteration of the invoke_tx loop either terminates with a TxDone or
sleeps for the current retry wait and continues. -/
inductive TxIterResult (α : Type) where
  | done : TxDone α → TxIterResult α
  | retry : ℚ → TxIterResult α

/-- The test of the except-DBAPIError handler in invoke_tx (src/dbos/core.py
line 484): a DBAPIError whose SQLSTATE is 40001 is a serialization failure. -/
def isSerializationFailure : Exc → Bool
  | .dbapi s => s = "40001"
  | _ => false

/-- One iteration of the invoke_tx while-loop (src/dbos/core.py lines
441-502).  has_recorded_error is reset at the top of each iteration; the OAOO
check comes first, and its three cases are: recorded error (truthy serialized
blob) is deserialized and raised with has_recorded_error set, so the
except-Exception handler does not write a second record; recorded output is
deserialized and returned; both null raises a generic exception, which the
except-Exception handler records (has_recorded_error is false) and re-raises.
A raised DBAPIError hits the except-DBAPIError handler: SQLSTATE 40001 sleeps
and retries, anything else re-raises from that handler, which the sibling
except-Exception handler does not catch, so nothing is recorded. -/
def tx_iteration (ev : TxAttemptEvent α) (retry_wait_seconds : ℚ) :
    TxIterResult α :=
  match ev with
  | .foundRecord recorded_output =>
    match recorded_output.error with
    | some se =>
      let deserialized_error := deserialize se
      if isSerializationFailure deserialized_error then
        .retry retry_wait_seconds
      else
        .done { outcome := .error deserialized_error, recordedOutput := none,
                recordedError := none, bodyRan := false }
    | none =>
      match recorded_output.output with
      | some so =>
        .done { outcome := .ok (deserialize so), recordedOutput := none,
                recordedError := none, bodyRan := false }
      | none =>
        .done { outcome := .error Exc.bothNone, recordedOutput := none,
                recordedError := some Exc.bothNone, bodyRan := false }
  | .bodyReturns v =>
    .done { outcome := .ok v, recordedOutput := some v,
            recordedError := none, bodyRan := true }
  | .raisedDBAPI s bodyRan =>
    if s = "40001" then .retry retry_wait_seconds
    else
      .done { outcome := .error (Exc.dbapi s), recordedOutput := none,
              recordedError := none, bodyRan := bodyRan }
  | .bodyRaises e =>
    .done { outcome := .error e, recordedOutput := none,
            recordedError := some e, bodyRan := true }

/-- The while-True loop of invoke_tx (src/dbos/core.py lines 441-502), driven
by the per-iteration environment events, with explicit fuel standing for the
unbounded loop (none means the fuel ran out before the loop terminated).  On a
serialization failure the loop sleeps the current wait and continues with the
wait multiplied by backoff_factor, capped at max_retry_wait_seconds.  The
second component collects the sleeps in order. -/
def invoke_tx_loop (backoff_factor max_retry_wait_seconds : ℚ)
    (events : Nat → TxAttemptEvent α) :
    Nat → Nat → ℚ → Option (TxDone α × List ℚ)
  | 0, _, _ => none
  | fuel + 1, n, retry_wait_seconds =>
    match tx_iteration (events n) retry_wait_seconds with
    | .done d => some (d, [])
    | .retry w =>
      match invoke_tx_loop backoff_factor max_retry_wait_seconds events fuel
          (n + 1) (min (retry_wait_seconds * backoff_factor)
            max_retry_wait_seconds) with
      | none => none
      | some (d, sleeps) => some (d, w :: sleeps)

/-- invoke_tx (src/dbos/core.py lines 417-503): the retry loop started with
retry_wait_seconds = 0.001, backoff_factor = 1.5,
max_retry_wait_seconds = 2.0. -/
def invoke_tx (events : Nat → TxAttemptEvent α) (fuel : Nat) :
    Option (TxDone α × List ℚ) :=
  let retry_wait_seconds : ℚ := 1 / 1000
  let backoff_factor : ℚ := 3 / 2
  let max_retry_wait_seconds : ℚ := 2
  invoke_tx_loop backoff_factor max_retry_wait_seconds events fuel 0
    retry_wait_seconds

/-- The slice of WorkflowStatusInternal (dbos/system_database.py) that
_execute_workflow and _execute_workflow_id read and write. -/
structure WorkflowStatusInternal (α : Type) where
  workflow_uuid : String
  status : String
  name : String
  class_name : Option String
  config_name : Option String
  output : Option (Serialized α)
  error : Option (Serialized Exc)
  deriving Repr

/-- A status write issued to the system database: buffer_workflow_status
(batched by the background flusher) or update_workflow_status (synchronous). -/
inductive WfStatusWrite (α : Type) where
  | buffered : WorkflowStatusInternal α → WfStatusWrite α
  | synchronous : WorkflowStatusInternal α → WfStatusWrite α

/-- _WorkflowHandlePolling.get_result (src/dbos/core.py lines 110-112): awaits
the workflow result from the system database. -/
def pollingHandle_get_result (await_workflow_result : String → Except Exc α)
    (workflow_id : String) : Except Exc α :=
  await_workflow_result workflow_id

/-- Modelled from the spec: DBOS.retrieve_workflow (dbos/dbos.py is not under
src/) returns a polling handle for the given workflow id (spec sections 4.3
and 4.4), whose get_result awaits the result from the system database. -/
def retrieve_workflow_get_result
    (await_workflow_result : String → Except Exc α) (workflow_id : String) :
    Except Exc α :=
  pollingHandle_get_result await_workflow_result workflow_id

/-- _execute_workflow (src/dbos/core.py lines 171-197).  body is the outcome
of the user function; await_workflow_result stands for
sys_db.await_workflow_result used by the polling handle on the conflict path.
Returns the call's outcome together with the list of status writes issued. -/
def execute_workflow (status : WorkflowStatusInternal α)
    (body : Except Exc α) (await_workflow_result : String → Except Exc α) :
    Except Exc α × List (WfStatusWrite α) :=
  match body with
  | .ok output =>
    let status1 := { status with
      status := "SUCCESS", output := some (serialize output) }
    (.ok output, [.buffered status1])
  | .error Exc.workflowConflictID =>
    (retrieve_workflow_get_result await_workflow_result status.workflow_uuid,
     [])
  | .error error =>
    let status1 := { status with
      status := "ERROR", error := some (serialize error) }
    (.error error, [.synchronous status1])

/-- The id-assignment fragment of _start_workflow (src/dbos/core.py lines
362-373).  When the caller's context is within a workflow, its function_id is
incremented first; if no id was reserved for the next workflow, the child id
parent_workflow_id-function_id is reserved.  The child context is then forked
and the new workflow id assigned (fresh_id standing for the fresh UUID used
when nothing is reserved).  Returns the caller's context after mutation and
the new workflow id. -/
def start_workflow_assign_id (cur_ctx : Option DBOSContext)
    (fresh_id : String) : Option DBOSContext × String :=
  match cur_ctx with
  | some ctx0 =>
    if ctx0.is_within_workflow then
      let ctx1 := { ctx0 with function_id := ctx0.function_id + 1 }
      let ctx2 :=
        if ctx1.id_assigned_for_next_workflow.length = 0 then
          { ctx1 with id_assigned_for_next_workflow :=
              ctx1.workflow_id ++ "-" ++ toString ctx1.function_id }
        else ctx1
      let new_wf_ctx := create_child ctx2
      (some ctx2, assign_workflow_id new_wf_ctx fresh_id)
    else
      let new_wf_ctx := create_child ctx0
      (some ctx0, assign_workflow_id new_wf_ctx fresh_id)
  | none =>
    (none, assign_workflow_id
      { workflow_id := "", function_id := 0,
        id_assigned_for_next_workflow := "", curr_step_function_id := 0 }
      fresh_id)

/-- The arguments _recv passes to sys_db.recv, together with the caller's
context after the call. -/
structure RecvInvocation where
  workflow_uuid : String
  function_id : Nat
  timeout_function_id : Nat
  ctx_after : DBOSContext
  deriving DecidableEq, Repr

/-- _recv (src/dbos/core.py lines 680-702).  Inside a workflow, EnterDBOSStep
reserves the recv operation's function_id and one more function_id is reserved
for the implicit timeout sleep; sys_db.recv receives the step's function id
and the timeout function id.  Outside any workflow a DBOSException is
raised. -/
def recv_dispatch : Option DBOSContext → Except Exc RecvInvocation
  | some cur_ctx =>
    let ctx0 := enter_dbos_step cur_ctx
    let ctx := { ctx0 with function_id := ctx0.function_id + 1 }
    let timeout_function_id := ctx.function_id
    .ok { workflow_uuid := ctx.workflow_id
          function_id := ctx.curr_step_function_id
          timeout_function_id := timeout_function_id
          ctx_after := ctx }
  | none => .error (.dbosError "recv() must be called from within a workflow")

/-- GetEventWorkflowContext (dbos/system_database.py): the caller correlation
passed to sys_db.get_event when called from inside a workflow. -/
structure GetEventWorkflowContext where
  workflow_uuid : String
  function_id : Nat
  timeout_function_id : Nat
  deriving DecidableEq, Repr

/-- How _get_event called sys_db.get_event: with a caller context (OAOO
correlated) or without one (uncorrelated read), and the caller's context after
the call (none when there was no context). -/
structure GetEventInvocation where
  caller_ctx : Option GetEventWorkflowContext
  ctx_after : Option DBOSContext
  deriving DecidableEq, Repr

/-- _get_event (src/dbos/core.py lines 724-747).  Inside a workflow,
EnterDBOSStep reserves the operation's function_id and one more function_id is
reserved for the timeout; the caller context carries both.  Otherwise
sys_db.get_event is called directly with no caller context. -/
def get_event_dispatch : Option DBOSContext → GetEventInvocation
  | some cur_ctx =>
    if cur_ctx.is_within_workflow then
      let ctx0 := enter_dbos_step cur_ctx
      let ctx := { ctx0 with function_id := ctx0.function_id + 1 }
      { caller_ctx := some
          { workflow_uuid := ctx.workflow_id
            function_id := ctx.curr_step_function_id
            timeout_function_id := ctx.function_id }
        ctx_after := some ctx }
    else { caller_ctx := none, ctx_after := some cur_ctx }
  | none => { caller_ctx := none, ctx_after := none }

/-- The exceptions _execute_workflow_id raises, with the workflow id and the
message. -/
inductive RecoveryException where
  | DBOSRecoveryError : String → String → RecoveryException
  | DBOSWorkflowFunctionNotFoundError : String → String → RecoveryException
  deriving DecidableEq, Repr

/-- How _execute_workflow_id dispatches a recovered workflow into
_start_workflow: bound to a registered instance, bound to a registered class,
or plain. -/
inductive RecoveryDispatch where
  | startInstance : String → RecoveryDispatch
  | startClass : String → RecoveryDispatch
  | startPlain : RecoveryDispatch
  deriving DecidableEq, Repr

/-- Python str formatting of an optional string inside an f-string: None
renders as the text None. -/
def optionStr : Option String → String
  | some s => s
  | none => "None"

/-- _execute_workflow_id (src/dbos/core.py lines 223-275).  The lookups stand
for sys_db.get_workflow_status, sys_db.get_workflow_inputs (presence of the
serialized inputs row) and the registry maps (membership by key). -/
def execute_workflow_id (get_workflow_status : String → Option (WorkflowStatusInternal α))
    (get_workflow_inputs : String → Option String)
    (workflow_info_map : String → Bool)
    (class_info_map : String → Bool)
    (instance_info_map : String → Bool)
    (workflow_id : String) : Except RecoveryException RecoveryDispatch :=
  match get_workflow_status workflow_id with
  | none => .error (.DBOSRecoveryError workflow_id "Workflow status not found")
  | some status =>
    match get_workflow_inputs workflow_id with
    | none =>
      .error (.DBOSRecoveryError workflow_id "Workflow inputs not found")
    | some _ =>
      if workflow_info_map status.name then
        match status.config_name with
        | some config_name =>
          let iname := optionStr status.class_name ++ "/" ++ config_name
          if instance_info_map iname then .ok (.startInstance iname)
          else
            .error (.DBOSWorkflowFunctionNotFoundError workflow_id
              ("Cannot execute workflow because instance " ++ iname ++
                " is not registered"))
        | none =>
          match status.class_name with
          | some class_name =>
            if class_info_map class_name then .ok (.startClass class_name)
            else
              .error (.DBOSWorkflowFunctionNotFoundError workflow_id
                ("Cannot execute workflow because class " ++ class_name ++
                  " is not registered"))
          | none => .ok .startPlain
      else
        .error (.DBOSWorkflowFunctionNotFoundError workflow_id
          "Workflow function not found")

theorem step_retry_loop_all_fail {α : Type} (br cap : ℚ) (nmax : Nat)
    (body : Nat → Except Exc α) (errs : Nat → Exc)
    (hbody : ∀ n, body n = .error (errs n)) :
    ∀ (r a : Nat) (iv : ℚ) (st : StepLoopState α),
      a + r = nmax + 1 → 1 ≤ r →
      step_retry_loop true br nmax cap body r a iv st =
        { output := st.output
          error := some Exc.maxStepRetriesExceeded
          execs := st.execs + r
          sleeps := st.sleeps ++
            (List.range (r - 1)).map (backoffSeq iv br cap) } := by
  intro r
  induction r with
  | zero => intro a iv st _ h; omega
  | succ r ih =>
    intro a iv st ha _
    cases r with
    | zero =>
      have hanm : a = nmax := by omega
      subst hanm
      simp [step_retry_loop, hbody a]
    | succ r2 =>
      have hne : a ≠ nmax := by omega
      have hrec := ih (a + 1) (min (iv * br) cap)
        { output := st.output, error := some (errs a),
          execs := st.execs + 1, sleeps := st.sleeps ++ [iv] }
        (by omega) (by omega)
      conv_lhs => rw [step_retry_loop]
      simp only [hbody a, if_neg hne]
      rw [hrec]
      have hfun : ∀ k, backoffSeq iv br cap (k + 1) =
          backoffSeq (min (iv * br) cap) br cap k :=
        fun k => backoffSeq_shift iv br cap k
      simp only [StepLoopState.mk.injEq, Nat.add_sub_cancel,
        List.range_succ_eq_map, List.map_cons, List.map_map,
        Function.comp_def, Nat.succ_eq_add_one, hfun,
        show backoffSeq iv br cap 0 = iv from rfl,
        List.append_assoc, List.singleton_append, List.cons_append,
        if_true, List.nil_append, true_and, and_true]
      omega

/-- C1: Step OAOO replay: for every step invoked inside a workflow, if a
recorded operation result already exists for (workflow_id, function_id), the
user function body is not executed; if the record's error is non-null that
error is deserialized and raised, else if its output is non-null that output
is deserialized and returned, else (both null) an error is raised. -/
theorem step_oaoo_replay {α : Type} (retries_allowed : Bool)
    (interval_seconds backoff_rate : ℚ) (max_attempts : Nat)
    (check_operation_execution : String → Nat → Option (RecordedResult α))
    (outer_ctx : DBOSContext) (body : Nat → Except Exc α)
    (rcd : RecordedResult α)
    (hdb : check_operation_execution (enter_dbos_step outer_ctx).workflow_id
      (enter_dbos_step outer_ctx).function_id = some rcd) :
    (invoke_step retries_allowed interval_seconds max_attempts backoff_rate
        check_operation_execution outer_ctx body).execs = 0 ∧
    (invoke_step retries_allowed interval_seconds max_attempts backoff_rate
        check_operation_execution outer_ctx body).recorded = none ∧
    (∀ se, rcd.error = some se →
      (invoke_step retries_allowed interval_seconds max_attempts backoff_rate
        check_operation_execution outer_ctx body).outcome =
          .error (deserialize se)) ∧
    (rcd.error = none → ∀ so, rcd.output = some so →
      (invoke_step retries_allowed interval_seconds max_attempts backoff_rate
        check_operation_execution outer_ctx body).outcome =
          .ok (some (deserialize so))) ∧
    (rcd.error = none → rcd.output = none →
      (invoke_step retries_allowed interval_seconds max_attempts backoff_rate
        check_operation_execution outer_ctx body).outcome =
          .error Exc.bothNone) := by
  obtain ⟨out, err⟩ := rcd
  cases err with
  | some se => simp [invoke_step, hdb]
  | none =>
    cases out with
    | some so => simp [invoke_step, hdb]
    | none => simp [invoke_step, hdb]

theorem step_oaoo_replay_witness :
    (invoke_step (α := Nat) true 1 3 2
        (fun _ _ => some ⟨none, some ⟨Exc.user "boom"⟩⟩)
        ⟨"w", 0, "", 0⟩ (fun _ => .ok 7)).execs = 0 ∧
    (invoke_step (α := Nat) true 1 3 2
        (fun _ _ => some ⟨none, some ⟨Exc.user "boom"⟩⟩)
        ⟨"w", 0, "", 0⟩ (fun _ => .ok 7)).outcome =
      .error (Exc.user "boom") := by
  have h := step_oaoo_replay true 1 2 3
    (fun _ _ => some ⟨none, some ⟨Exc.user "boom"⟩⟩)
    ⟨"w", 0, "", 0⟩ (fun _ => .ok 7) ⟨none, some ⟨Exc.user "boom"⟩⟩ rfl
  exact ⟨h.1, h.2.2.1 ⟨Exc.user "boom"⟩ rfl⟩

/-- C2: Step retry exhaustion: for every step decorated with
retries_allowed = true whose body raises on every attempt, the body is
executed exactly max_attempts times, the error recorded to the
operation-result table and the error raised to the caller is the
distinguished MaxStepRetriesExceeded error (not the last attempt's underlying
exception), and the inter-attempt sleep intervals are interval_seconds
multiplied by backoff_rate after each attempt, capped at 3600 seconds, with
no sleep after the final attempt (max_attempts - 1 sleeps in total). -/
theorem step_retry_exhaustion {α : Type}
    (interval_seconds backoff_rate : ℚ) (max_attempts : Nat)
    (check_operation_execution : String → Nat → Option (RecordedResult α))
    (outer_ctx : DBOSContext) (body : Nat → Except Exc α) (errs : Nat → Exc)
    (hma : 1 ≤ max_attempts)
    (hdb : check_operation_execution (enter_dbos_step outer_ctx).workflow_id
      (enter_dbos_step outer_ctx).function_id = none)
    (hbody : ∀ n, body n = .error (errs n)) :
    invoke_step true interval_seconds max_attempts backoff_rate
        check_operation_execution outer_ctx body =
      { outcome := .error Exc.maxStepRetriesExceeded
        recorded := some
          { workflow_uuid := (enter_dbos_step outer_ctx).workflow_id
            function_id := (enter_dbos_step outer_ctx).function_id
            output := none
            error := some (serialize Exc.maxStepRetriesExceeded) }
        execs := max_attempts
        sleeps := (List.range (max_attempts - 1)).map
          (backoffSeq interval_seconds backoff_rate 3600) } := by
  have hloop := step_retry_loop_all_fail backoff_rate 3600 max_attempts body
    errs hbody max_attempts 1 interval_seconds ⟨none, none, 0, []⟩
    (by omega) hma
  simp only [invoke_step, hdb, if_true, hloop]
  simp

theorem step_retry_exhaustion_witness :
    invoke_step (α := Nat) true 1 3 2 (fun _ _ => none) ⟨"w", 0, "", 0⟩
        (fun n => .error (Exc.user (toString n))) =
      { outcome := .error Exc.maxStepRetriesExceeded
        recorded := some
          { workflow_uuid := "w", function_id := 1,
            output := none,
            error := some (serialize Exc.maxStepRetriesExceeded) }
        execs := 3
        sleeps := (List.range 2).map (backoffSeq 1 2 3600) } :=
  step_retry_exhaustion 1 2 3 (fun _ _ => none) ⟨"w", 0, "", 0⟩
    (fun n => .error (Exc.user (toString n))) (fun n => Exc.user (toString n))
    (by omega) rfl (fun _ => rfl)

/-- C10: for every step decorated with retries_allowed = false whose body
raises an exception, the body is executed exactly once, the underlying
exception itself (not MaxStepRetriesExceeded) is serialized as the error in
the recorded operation result, and that same underlying exception is re-raised
to the caller; no sleep happens. -/
theorem step_no_retry_underlying_error {α : Type}
    (interval_seconds backoff_rate : ℚ) (max_attempts : Nat)
    (check_operation_execution : String → Nat → Option (RecordedResult α))
    (outer_ctx : DBOSContext) (body : Nat → Except Exc α) (e : Exc)
    (hdb : check_operation_execution (enter_dbos_step outer_ctx).workflow_id
      (enter_dbos_step outer_ctx).function_id = none)
    (hbody : body 1 = .error e) :
    invoke_step false interval_seconds max_attempts backoff_rate
        check_operation_execution outer_ctx body =
      { outcome := .error e
        recorded := some
          { workflow_uuid := (enter_dbos_step outer_ctx).workflow_id
            function_id := (enter_dbos_step outer_ctx).function_id
            output := none
            error := some (serialize e) }
        execs := 1
        sleeps := [] } := by
  simp [invoke_step, hdb, step_retry_loop, hbody]

theorem step_no_retry_underlying_error_witness :
    invoke_step (α := Nat) false 1 3 2 (fun _ _ => none) ⟨"w", 0, "", 0⟩
        (fun _ => .error (Exc.user "boom")) =
      { outcome := .error (Exc.user "boom")
        recorded := some
          { workflow_uuid := "w", function_id := 1,
            output := none, error := some (serialize (Exc.user "boom")) }
        execs := 1
        sleeps := [] } :=
  step_no_retry_underlying_error 1 2 3 (fun _ _ => none) ⟨"w", 0, "", 0⟩
    (fun _ => .error (Exc.user "boom")) (Exc.user "boom") rfl rfl

theorem invoke_tx_loop_retry_seq {α : Type} (bf cap : ℚ)
    (events : Nat → TxAttemptEvent α) (d : TxDone α) (N : Nat) :
    ∀ (fuel n : Nat) (wait : ℚ),
      (∀ k, k < N → ∃ b, events (n + k) = .raisedDBAPI "40001" b) →
      tx_iteration (events (n + N)) (backoffSeq wait bf cap N) = .done d →
      N < fuel →
      invoke_tx_loop bf cap events fuel n wait =
        some (d, (List.range N).map (backoffSeq wait bf cap)) := by
  induction N with
  | zero =>
    intro fuel n wait _ hiter hfuel
    match fuel, hfuel with
    | fuel + 1, _ =>
      rw [show n + 0 = n from rfl,
        show backoffSeq wait bf cap 0 = wait from rfl] at hiter
      simp only [invoke_tx_loop, hiter, List.range_zero, List.map_nil]
  | succ N ih =>
    intro fuel n wait hconf hiter hfuel
    match fuel, hfuel with
    | fuel + 1, _ =>
      obtain ⟨b, hb⟩ := hconf 0 (by omega)
      rw [show n + 0 = n from rfl] at hb
      have hretry : tx_iteration (events n) wait = .retry (α := α) wait := by
        rw [hb]; simp [tx_iteration]
      have hrec := ih fuel (n + 1) (min (wait * bf) cap)
        (fun k hk => by
          obtain ⟨b2, hb2⟩ := hconf (k + 1) (by omega)
          exact ⟨b2, by rw [show n + 1 + k = n + (k + 1) by omega]; exact hb2⟩)
        (by rw [show n + 1 + N = n + (N + 1) by omega, ← backoffSeq_shift]
            exact hiter)
        (by omega)
      simp only [invoke_tx_loop, hretry, hrec]
      have hfun : ∀ k, backoffSeq wait bf cap (k + 1) =
          backoffSeq (min (wait * bf) cap) bf cap k :=
        fun k => backoffSeq_shift wait bf cap k
      simp only [List.range_succ_eq_map, List.map_cons, List.map_map,
        Function.comp_def, Nat.succ_eq_add_one, hfun,
        show backoffSeq wait bf cap 0 = wait from rfl]

/-- C3: Transaction serialization-failure retry: for every transaction
invocation, if the database raises a DBAPI error whose SQLSTATE is 40001, the
attempt is retried after a sleep, with the sleep sequence 1 ms, 1.5 ms,
2.25 ms, ... (each subsequent wait 1.5 times the previous, in seconds here:
initial 1/1000, factor 3/2) capped at 2 seconds, the number of retries
unbounded (any N below the fuel); any error whose SQLSTATE is not 40001 exits
the retry loop, is raised and is not retried. -/
theorem tx_serialization_retry {α : Type} (events : Nat → TxAttemptEvent α)
    (N fuel : Nat) (s : String) (b : Bool) (bs : Nat → Bool)
    (hconf : ∀ k, k < N → events k = .raisedDBAPI "40001" (bs k))
    (hfinal : events N = .raisedDBAPI s b)
    (hs : s ≠ "40001")
    (hfuel : N < fuel) :
    invoke_tx events fuel =
      some ({ outcome := .error (Exc.dbapi s), recordedOutput := none,
              recordedError := none, bodyRan := b },
        (List.range N).map (backoffSeq (1 / 1000) (3 / 2) 2)) ∧
    backoffSeq (1 / 1000) (3 / 2) 2 0 = 1 / 1000 ∧
    ∀ k, backoffSeq (1 / 1000) (3 / 2) 2 (k + 1) =
      min (backoffSeq (1 / 1000) (3 / 2) 2 k * (3 / 2)) 2 := by
  refine ⟨?_, rfl, fun k => rfl⟩
  have h1 : tx_iteration (events (0 + N)) (backoffSeq (1 / 1000) (3 / 2) 2 N) =
      .done { outcome := .error (Exc.dbapi s), recordedOutput := none,
              recordedError := none, bodyRan := b } := by
    rw [Nat.zero_add, hfinal]
    simp [tx_iteration, hs]
  have h2 := invoke_tx_loop_retry_seq (3 / 2) 2 events
    { outcome := .error (Exc.dbapi s), recordedOutput := none,
      recordedError := none, bodyRan := b } N fuel 0 (1 / 1000)
    (fun k hk => ⟨bs k, by simpa using hconf k hk⟩) h1 hfuel
  simpa [invoke_tx] using h2

theorem tx_serialization_retry_witness :
    invoke_tx (α := Nat)
        (fun n => if n < 2 then .raisedDBAPI "40001" true
          else .raisedDBAPI "xx" false) 3 =
      some ({ outcome := .error (Exc.dbapi "xx"), recordedOutput := none,
              recordedError := none, bodyRan := false },
        (List.range 2).map (backoffSeq (1 / 1000) (3 / 2) 2)) :=
  (tx_serialization_retry
    (fun n => if n < 2 then .raisedDBAPI "40001" true
      else .raisedDBAPI "xx" false) 2 3 "xx" false (fun _ => true)
    (fun k hk => by simp [hk]) (by norm_num) (by decide) (by omega)).1

/-- C5: Transaction OAOO replay: for every transaction invocation where a
recorded result exists for (workflow_id, function_id), the user function body
is not executed; a recorded error is deserialized and re-raised without being
re-recorded (the already-recorded mark prevents the outer error handler from
writing a second error record), a recorded output is deserialized and
returned, and if both output and error are null a structured error is raised.
The recorded-error case assumes the deserialized error is not an SQLSTATE
40001 DBAPI error, which the recorder can never produce: DBAPI errors are
caught by the sibling handler and never reach record_transaction_error. -/
theorem tx_oaoo_replay {α : Type} (events : Nat → TxAttemptEvent α)
    (fuel : Nat) (rcd : RecordedResult α)
    (hev : events 0 = .foundRecord rcd)
    (hfuel : 0 < fuel) :
    (∀ se, rcd.error = some se →
      isSerializationFailure (deserialize se) = false →
      invoke_tx events fuel =
        some ({ outcome := .error (deserialize se), recordedOutput := none,
                recordedError := none, bodyRan := false }, [])) ∧
    (rcd.error = none → ∀ so, rcd.output = some so →
      invoke_tx events fuel =
        some ({ outcome := .ok (deserialize so), recordedOutput := none,
                recordedError := none, bodyRan := false }, [])) ∧
    (rcd.error = none → rcd.output = none →
      invoke_tx events fuel =
        some ({ outcome := .error Exc.bothNone, recordedOutput := none,
                recordedError := some Exc.bothNone, bodyRan := false },
          [])) := by
  match fuel, hfuel with
  | fuel + 1, _ =>
    obtain ⟨out, err⟩ := rcd
    refine ⟨?_, ?_, ?_⟩
    · intro se hse hnsf
      simp only at hse
      subst hse
      simp [invoke_tx, invoke_tx_loop, hev, tx_iteration, hnsf]
    · intro herr so hso
      simp only at herr hso
      subst herr; subst hso
      simp [invoke_tx, invoke_tx_loop, hev, tx_iteration]
    · intro herr hout
      simp only at herr hout
      subst herr; subst hout
      simp [invoke_tx, invoke_tx_loop, hev, tx_iteration]

theorem tx_oaoo_replay_witness :
    invoke_tx (α := Nat)
        (fun _ => .foundRecord ⟨none, some ⟨Exc.user "e1"⟩⟩) 1 =
      some ({ outcome := .error (Exc.user "e1"), recordedOutput := none,
              recordedError := none, bodyRan := false }, []) :=
  (tx_oaoo_replay (fun _ => .foundRecord ⟨none, some ⟨Exc.user "e1"⟩⟩) 1
    ⟨none, some ⟨Exc.user "e1"⟩⟩ rfl (by omega)).1 ⟨Exc.user "e1"⟩ rfl rfl

/-- C6: Workflow terminal status recording: for every workflow body
execution, on normal return the status is set to SUCCESS with the serialized
output and the status write is buffered (not written synchronously), while on
any exception other than WorkflowConflictID the status is set to ERROR with
the serialized error, the status row is written synchronously, and the
exception is re-raised to the caller. -/
theorem workflow_terminal_status {α : Type}
    (status : WorkflowStatusInternal α) (body : Except Exc α)
    (await_workflow_result : String → Except Exc α) :
    (∀ v, body = .ok v →
      execute_workflow status body await_workflow_result =
        (.ok v, [.buffered { status with
          status := "SUCCESS", output := some (serialize v) }])) ∧
    (∀ e, body = .error e → e ≠ Exc.workflowConflictID →
      execute_workflow status body await_workflow_result =
        (.error e, [.synchronous { status with
          status := "ERROR", error := some (serialize e) }])) := by
  constructor
  · intro v hv; subst hv; rfl
  · intro e he hne; subst he
    cases e with
    | workflowConflictID => exact absurd rfl hne
    | user s => rfl
    | dbapi s => rfl
    | maxStepRetriesExceeded => rfl
    | bothNone => rfl
    | dbosError s => rfl

theorem workflow_terminal_status_witness :
    execute_workflow (α := Nat)
        ⟨"w", "PENDING", "f", none, none, none, none⟩ (.ok 5)
        (fun _ => .error (Exc.user "na")) =
      (.ok 5, [.buffered ⟨"w", "SUCCESS", "f", none, none,
        some (serialize 5), none⟩]) ∧
    execute_workflow (α := Nat)
        ⟨"w", "PENDING", "f", none, none, none, none⟩
        (.error (Exc.user "boom")) (fun _ => .error (Exc.user "na")) =
      (.error (Exc.user "boom"), [.synchronous ⟨"w", "ERROR", "f", none, none,
        none, some (serialize (Exc.user "boom"))⟩]) :=
  ⟨(workflow_terminal_status ⟨"w", "PENDING", "f", none, none, none, none⟩
      (.ok 5) (fun _ => .error (Exc.user "na"))).1 5 rfl,
   (workflow_terminal_status ⟨"w", "PENDING", "f", none, none, none, none⟩
      (.error (Exc.user "boom")) (fun _ => .error (Exc.user "na"))).2
      (Exc.user "boom") rfl (by simp)⟩

/-- C7: Conflicting workflow start convergence: for every workflow execution
that raises WorkflowConflictID, no status or result record is written by this
execution (the list of status writes is empty); instead a handle for the same
workflow id is obtained and its awaited result is returned. -/
theorem workflow_conflict_convergence {α : Type}
    (status : WorkflowStatusInternal α) (body : Except Exc α)
    (await_workflow_result : String → Except Exc α)
    (hbody : body = .error Exc.workflowConflictID) :
    execute_workflow status body await_workflow_result =
      (retrieve_workflow_get_result await_workflow_result
        status.workflow_uuid, []) := by
  subst hbody; rfl

theorem workflow_conflict_convergence_witness :
    execute_workflow (α := Nat)
        ⟨"w", "PENDING", "f", none, none, none, none⟩
        (.error Exc.workflowConflictID) (fun _ => .ok 42) =
      (retrieve_workflow_get_result (fun _ => .ok 42) "w", []) :=
  workflow_conflict_convergence ⟨"w", "PENDING", "f", none, none, none, none⟩
    (.error Exc.workflowConflictID) (fun _ => .ok 42) rfl

/-- C4: Child workflow id determinism: for every start_workflow call made
from inside a workflow (not inside a step) with no explicitly assigned id,
the caller's function_id is incremented first and the child workflow id
equals the parent's workflow_id concatenated with a dash and the incremented
function_id. -/
theorem child_workflow_id_determinism (ctx : DBOSContext) (fresh_id : String)
    (hin : ctx.is_within_workflow = true)
    (hnoid : ctx.id_assigned_for_next_workflow = "") :
    (start_workflow_assign_id (some ctx) fresh_id).2 =
      ctx.workflow_id ++ "-" ++ toString (ctx.function_id + 1) ∧
    ∃ ctx2, (start_workflow_assign_id (some ctx) fresh_id).1 = some ctx2 ∧
      ctx2.function_id = ctx.function_id + 1 := by
  have hlen : 0 <
      (ctx.workflow_id ++ "-" ++ toString (ctx.function_id + 1)).length := by
    simp [String.length_append]
    exact Or.inl (Or.inr (by decide))
  simp only [start_workflow_assign_id, hin, if_true, hnoid,
    create_child, assign_workflow_id]
  simp [hlen]
  intro _ h _
  exact absurd h (by decide)

theorem child_workflow_id_determinism_witness :
    (start_workflow_assign_id (some ⟨"p1", 0, "", 0⟩) "uuid-fresh").2 =
      "p1" ++ "-" ++ toString (0 + 1) ∧
    ∃ ctx2,
      (start_workflow_assign_id (some ⟨"p1", 0, "", 0⟩) "uuid-fresh").1 =
        some ctx2 ∧ ctx2.function_id = 0 + 1 :=
  child_workflow_id_determinism ⟨"p1", 0, "", 0⟩ "uuid-fresh"
    (by decide) rfl

/-- C8: Two function_ids per timed wait: every recv call inside a workflow,
and every get_event call inside a workflow, reserves exactly two consecutive
function_ids (one for the operation itself, the next for the implicit
timeout/sleep); a get_event call outside any workflow performs an
uncorrelated read with no function_id reservation and no OAOO record. -/
theorem timed_wait_reserves_two_ids (ctx ctxOut : DBOSContext)
    (hin : ctx.is_within_workflow = true)
    (hout : ctxOut.is_within_workflow = false) :
    (∃ inv, recv_dispatch (some ctx) = .ok inv ∧
      inv.function_id = ctx.function_id + 1 ∧
      inv.timeout_function_id = ctx.function_id + 2 ∧
      inv.ctx_after.function_id = ctx.function_id + 2) ∧
    ((get_event_dispatch (some ctx)).caller_ctx =
        some { workflow_uuid := ctx.workflow_id
               function_id := ctx.function_id + 1
               timeout_function_id := ctx.function_id + 2 } ∧
      ∃ ctx2, (get_event_dispatch (some ctx)).ctx_after = some ctx2 ∧
        ctx2.function_id = ctx.function_id + 2) ∧
    ((get_event_dispatch (some ctxOut)).caller_ctx = none ∧
      (get_event_dispatch (some ctxOut)).ctx_after = some ctxOut) ∧
    (get_event_dispatch none).caller_ctx = none := by
  refine ⟨⟨_, rfl, rfl, rfl, rfl⟩, ?_, ?_, rfl⟩
  · simp only [get_event_dispatch, hin, if_true]
    exact ⟨rfl, _, rfl, rfl⟩
  · simp [get_event_dispatch, hout]

theorem timed_wait_reserves_two_ids_witness :
    (∃ inv, recv_dispatch (some ⟨"w", 5, "", 0⟩) = .ok inv ∧
      inv.function_id = 5 + 1 ∧
      inv.timeout_function_id = 5 + 2 ∧
      inv.ctx_after.function_id = 5 + 2) ∧
    ((get_event_dispatch (some ⟨"w", 5, "", 0⟩)).caller_ctx =
        some { workflow_uuid := "w", function_id := 5 + 1,
               timeout_function_id := 5 + 2 } ∧
      ∃ ctx2,
        (get_event_dispatch (some ⟨"w", 5, "", 0⟩)).ctx_after = some ctx2 ∧
        ctx2.function_id = 5 + 2) ∧
    ((get_event_dispatch (some ⟨"", 0, "", 0⟩)).caller_ctx = none ∧
      (get_event_dispatch (some ⟨"", 0, "", 0⟩)).ctx_after =
        some ⟨"", 0, "", 0⟩) ∧
    (get_event_dispatch none).caller_ctx = none :=
  timed_wait_reserves_two_ids ⟨"w", 5, "", 0⟩ ⟨"", 0, "", 0⟩
    (by decide) (by decide)

/-- C9: Recovery error taxonomy: for every recovery attempt by workflow id,
if the persisted status row or the persisted inputs row is missing, recovery
fails with RecoveryError; if the function named in the status row is not in
the workflow registry, or the class or instance binding named in the status
row is not registered, recovery fails with WorkflowFunctionNotFound; these
failures are raised (as the error result), never silently skipped. -/
theorem recovery_error_taxonomy {α : Type}
    (get_workflow_status : String → Option (WorkflowStatusInternal α))
    (get_workflow_inputs : String → Option String)
    (workflow_info_map class_info_map instance_info_map : String → Bool)
    (workflow_id : String) :
    (get_workflow_status workflow_id = none →
      execute_workflow_id get_workflow_status get_workflow_inputs
          workflow_info_map class_info_map instance_info_map workflow_id =
        .error (.DBOSRecoveryError workflow_id
          "Workflow status not found")) ∧
    (∀ status, get_workflow_status workflow_id = some status →
      get_workflow_inputs workflow_id = none →
      execute_workflow_id get_workflow_status get_workflow_inputs
          workflow_info_map class_info_map instance_info_map workflow_id =
        .error (.DBOSRecoveryError workflow_id
          "Workflow inputs not found")) ∧
    (∀ status inputs, get_workflow_status workflow_id = some status →
      get_workflow_inputs workflow_id = some inputs →
      workflow_info_map status.name = false →
      execute_workflow_id get_workflow_status get_workflow_inputs
          workflow_info_map class_info_map instance_info_map workflow_id =
        .error (.DBOSWorkflowFunctionNotFoundError workflow_id
          "Workflow function not found")) ∧
    (∀ status inputs config_name,
      get_workflow_status workflow_id = some status →
      get_workflow_inputs workflow_id = some inputs →
      workflow_info_map status.name = true →
      status.config_name = some config_name →
      instance_info_map
        (optionStr status.class_name ++ "/" ++ config_name) = false →
      execute_workflow_id get_workflow_status get_workflow_inputs
          workflow_info_map class_info_map instance_info_map workflow_id =
        .error (.DBOSWorkflowFunctionNotFoundError workflow_id
          ("Cannot execute workflow because instance " ++
            (optionStr status.class_name ++ "/" ++ config_name) ++
            " is not registered"))) ∧
    (∀ status inputs class_name,
      get_workflow_status workflow_id = some status →
      get_workflow_inputs workflow_id = some inputs →
      workflow_info_map status.name = true →
      status.config_name = none →
      status.class_name = some class_name →
      class_info_map class_name = false →
      execute_workflow_id get_workflow_status get_workflow_inputs
          workflow_info_map class_info_map instance_info_map workflow_id =
        .error (.DBOSWorkflowFunctionNotFoundError workflow_id
          ("Cannot execute workflow because class " ++ class_name ++
            " is not registered"))) := by
  refine ⟨?_, ?_, ?_, ?_, ?_⟩
  · intro h; simp [execute_workflow_id, h]
  · intro status h1 h2; simp [execute_workflow_id, h1, h2]
  · intro status inputs h1 h2 h3; simp [execute_workflow_id, h1, h2, h3]
  · intro status inputs config_name h1 h2 h3 h4 h5
    simp [execute_workflow_id, h1, h2, h3, h4, h5]
  · intro status inputs class_name h1 h2 h3 h4 h5 h6
    simp [execute_workflow_id, h1, h2, h3, h4, h5, h6]

theorem recovery_error_taxonomy_witness :
    execute_workflow_id (α := Nat) (fun _ => none) (fun _ => some "inputs")
        (fun _ => true) (fun _ => true) (fun _ => true) "w1" =
      .error (.DBOSRecoveryError "w1" "Workflow status not found") :=
  (recovery_error_taxonomy (fun _ => none) (fun _ => some "inputs")
    (fun _ => true) (fun _ => true) (fun _ => true) "w1").1 rfl
